import Mathlib

/-!
Verification development for git-sign-verifier.

The Rust sources (src/verify.rs, src/gpg.rs, src/git.rs) are shallowly
embedded below.  Bytes are modelled as `List Nat`, object ids (`git2::Oid`)
as `Nat`, strings handed to the GPG engine as the byte lists of their UTF-8
encoding.  External collaborators (the libgit2 object store and the gpgme
engine) are modelled explicitly: the object store as a `Repo` value, the
engine as a record of pure functions.  Console diagnostics (`println!` /
`eprintln!`) are modelled as `Report` values returned alongside results.
-/

set_option maxRecDepth 100000

namespace GSV

/-- Bytes of a Rust byte slice / `Vec<u8>`, one `Nat` (< 256 in practice) per byte. -/
abbrev Bytes := List Nat

/-- UTF-8 bytes of an ASCII string literal (all literals used by the tool are ASCII,
so the code-point list coincides with the byte list). -/
def ascii (s : String) : Bytes := s.data.map Char.toNat

/-- Model of `std::io::BufRead::read_until(b'\n')` driven in a loop over a byte
buffer: the list of lines, each keeping its terminating line feed; a final
unterminated segment is returned as-is, and nothing is returned at end of input. -/
def splitKeepNLAux : Bytes → Bytes → List Bytes
  | [], acc => if acc = [] then [] else [acc.reverse]
  | b :: rest, acc =>
    if b = 10 then (acc.reverse ++ [10]) :: splitKeepNLAux rest []
    else splitKeepNLAux rest (b :: acc)

/-- Lines of a byte buffer, line feeds kept (see `splitKeepNLAux`). -/
def splitKeepNL (bs : Bytes) : List Bytes := splitKeepNLAux bs []

/-- Concatenation of byte lines back into one buffer. -/
def joinBytes (ls : List Bytes) : Bytes := ls.foldr (· ++ ·) []

/-- Model of Rust `str::lines().next().unwrap_or("")`: the first line of the
string, without its terminator; a carriage return is stripped only when a line
feed followed it; the empty string yields the empty line. -/
def firstLine (s : Bytes) : Bytes :=
  let tw := s.takeWhile (fun b => b ≠ 10)
  if tw.length < s.length then
    if tw.getLast? = some 13 then tw.dropLast else tw
  else tw

/-- Whether a byte is a UTF-8 continuation byte (0x80..0xBF). -/
def isCont (b : Nat) : Bool := decide (0x80 ≤ b) && decide (b < 0xC0)

/-- Byte-level UTF-8 validity, the predicate behind Rust
`std::str::from_utf8` / `gpgme::Data::as_str` succeeding (RFC 3629:
no overlong forms, no surrogates, nothing above U+10FFFF). -/
def isValidUtf8 : Bytes → Bool
  | [] => true
  | b :: rest =>
    if b < 0x80 then isValidUtf8 rest
    else if b < 0xC2 then false
    else if b ≤ 0xDF then
      match rest with
      | c :: r => isCont c && isValidUtf8 r
      | _ => false
    else if b = 0xE0 then
      match rest with
      | c1 :: c2 :: r => (decide (0xA0 ≤ c1) && decide (c1 ≤ 0xBF)) && isCont c2 && isValidUtf8 r
      | _ => false
    else if b = 0xED then
      match rest with
      | c1 :: c2 :: r => (decide (0x80 ≤ c1) && decide (c1 ≤ 0x9F)) && isCont c2 && isValidUtf8 r
      | _ => false
    else if b ≤ 0xEF then
      match rest with
      | c1 :: c2 :: r => isCont c1 && isCont c2 && isValidUtf8 r
      | _ => false
    else if b = 0xF0 then
      match rest with
      | c1 :: c2 :: c3 :: r =>
        (decide (0x90 ≤ c1) && decide (c1 ≤ 0xBF)) && isCont c2 && isCont c3 && isValidUtf8 r
      | _ => false
    else if b ≤ 0xF3 then
      match rest with
      | c1 :: c2 :: c3 :: r => isCont c1 && isCont c2 && isCont c3 && isValidUtf8 r
      | _ => false
    else if b = 0xF4 then
      match rest with
      | c1 :: c2 :: c3 :: r =>
        (decide (0x80 ≤ c1) && decide (c1 ≤ 0x8F)) && isCont c2 && isCont c3 && isValidUtf8 r
      | _ => false
    else false

/-- GPGME key/ownertrust validity levels (`gpgme::Validity`). -/
inductive Validity where
  | unknown
  | undefined
  | never
  | marginal
  | full
  | ultimate
deriving DecidableEq, Repr

/-- One per-signer outcome of `gpgme`'s detached verification
(`gpgme::results::Signature`): the summary flags inspected by the tool,
plus the validity level. -/
structure SignerOutcome where
  fingerprint : Bytes
  keyRevoked : Bool
  keyExpired : Bool
  sigExpired : Bool
  keyMissing : Bool
  valid : Bool
  validity : Validity
deriving DecidableEq, Repr

/-- Error strings pushed for one signer by the loop body of
`verify_gpg_signature_result` (src/gpg.rs lines 37-55), in source order. -/
def signerErrors (sig : SignerOutcome) : List String :=
  (if sig.keyRevoked then ["GPG key revoked"] else []) ++
  (if sig.keyExpired then ["GPG key expired"] else []) ++
  (if sig.sigExpired then ["Signature expired"] else []) ++
  (if sig.keyMissing then ["Unknown GPG key, missing in keyring"] else []) ++
  (if !sig.valid then ["Invalid signature"] else [])

/-- Whether a validity level makes the `match sig.validity()` arm in
src/gpg.rs lines 57-64 return `Ok(())`: Full, Ultimate or Marginal. -/
def trustedValidity (v : Validity) : Bool :=
  match v with
  | .full | .ultimate | .marginal => true
  | _ => false

/-- Loop of `verify_gpg_signature_result` (src/gpg.rs lines 33-71) with the
accumulated `errors` vector made explicit. -/
def verifyGpgLoop : List SignerOutcome → List String → Except String Unit
  | [], errors =>
    match errors with
    | [] => .error "No signature found"
    | e :: _ => .error e
  | sig :: rest, errors =>
    let errors := errors ++ signerErrors sig
    if trustedValidity sig.validity then .ok ()
    else verifyGpgLoop rest (errors ++ ["GPG key untrusted, should be Full, Ultimate or Marginal."])

/-- Model of `verify_gpg_signature_result` (src/gpg.rs lines 28-72):
trust decision over the engine's per-signer outcomes. -/
def verify_gpg_signature_result (sigs : List SignerOutcome) : Except String Unit :=
  verifyGpgLoop sigs []

/-- A signer outcome with none of the four failure flags (key revoked, key
expired, signature expired, key missing from keyring) set — the spec's
notion of a clean signer entry. -/
def noFailureFlags (sig : SignerOutcome) : Bool :=
  !sig.keyRevoked && !sig.keyExpired && !sig.sigExpired && !sig.keyMissing

/-- A commit object as read through git2: parent ids, commit time
(`git_commit_time`), the raw header bytes, the raw message bytes
(`message_raw_bytes`), and the result of `header_field_bytes("gpgsig")`
(`none` models the `Err` of a missing header field). -/
structure CommitObj where
  parents : List Nat
  time : Int
  rawHeader : Bytes
  message : Bytes
  gpgsig : Option Bytes
deriving DecidableEq, Repr

/-- An annotated tag object: the target commit id (its `object` field) and
the full raw object bytes as returned by `odb.read(oid).data()`. -/
structure TagObj where
  targetCommit : Nat
  rawBytes : Bytes
deriving DecidableEq, Repr

/-- An object in the object database.  Only the kinds the verifier touches
(commits and annotated tags) are modelled; `verify_tag`'s catch-all branch
for other kinds is reached here by a lightweight tag, i.e. a tag reference
naming a commit object directly. -/
inductive Obj where
  | commit : CommitObj → Obj
  | tag : TagObj → Obj
deriving DecidableEq, Repr

/-- Local `user.name` / `user.email` git configuration (git.rs `read_user`). -/
structure GitUser where
  name : Bytes
  email : Bytes
deriving DecidableEq, Repr

/-- The repository as the verifier sees it: the object database keyed by oid,
the `refs/tags/SIGN_VERIFIED` reference, the HEAD target oid, the local user
configuration, and the wall clock consumed by `git2::Signature::now`. -/
structure Repo where
  objects : List (Nat × Obj)
  tagRef : Option Nat
  headOid : Nat
  user : Option GitUser
  taggerTime : Int
  taggerOffsetMinutes : Int
deriving DecidableEq, Repr

/-- Result of one `gpgme` detached-verify call: either an engine-level error
(`gpgme::Error`, modelled by its message) or a list of per-signer outcomes. -/
inductive EngineResult where
  | err : String → EngineResult
  | ok : List SignerOutcome → EngineResult
deriving DecidableEq, Repr

/-- The cryptographic engine (a gpgme context bound to a keyring):
`verifyDetached sig payload` models `Context::verify_detached`, and
`signDetached content` models `sign_tag_content` (git.rs lines 129-146),
`none` standing for its `Err` outcome. -/
structure Engine where
  verifyDetached : Bytes → Bytes → EngineResult
  signDetached : Bytes → Option Bytes

/-- Console diagnostics emitted by the verifier, one constructor per
`println!`/`eprintln!` site that reports a verdict.  Identifiers are the oids
interpolated into the messages. -/
inductive Report where
  | trusted (identifier : Nat)
  | invalid (identifier : Nat) (msg : String)
  | engineError (identifier : Nat) (msg : String)
  | sshUnsupported (identifier : Nat)
  | unknownMarker (identifier : Nat) (firstLineBytes : Bytes)
  | notSignedWithGpg (identifier : Nat)
  | tagSignatureNotFound
  | lightweightTag (identifier : Nat)
deriving DecidableEq, Repr

/-- Errors of type `git2::Error` that the embedded functions produce. -/
inductive GitError where
  | headerFieldMissing
  | commitNotFound (oid : Nat)
  | other (msg : String)
deriving DecidableEq, Repr

/-- Filtering loop of `signed_commit_data` (src/verify.rs lines 56-82) over the
header lines, with the `in_gpgsig_header` flag explicit; returns the
`filtered_header_bytes` buffer. -/
def filterHeaderLines : List Bytes → Bool → Bytes
  | [], _ => []
  | lineBuf :: rest, inGpgsig =>
    if (ascii "gpgsig ").isPrefixOf lineBuf then
      filterHeaderLines rest true
    else if inGpgsig && (ascii " ").isPrefixOf lineBuf then
      filterHeaderLines rest true
    else
      lineBuf ++ filterHeaderLines rest false

/-- Model of `signed_commit_data` (src/verify.rs lines 48-90): the payload that
was originally signed — headers with the gpgsig block filtered out, one line
feed, then the raw message bytes. -/
def signed_commit_data (commit : CommitObj) : Bytes :=
  filterHeaderLines (splitKeepNL commit.rawHeader) false ++ [10] ++ commit.message

/-- First line of a PGP armored signature block. -/
def PGP_MARKER : Bytes := ascii "-----BEGIN PGP SIGNATURE-----"

/-- First line of an SSH armored signature block. -/
def SSH_MARKER : Bytes := ascii "-----BEGIN SSH SIGNATURE-----"

/-- Model of `verify_detached_signature` (src/verify.rs lines 223-261).  The
Rust function returns `Ok` in every branch, so it is modelled as returning the
boolean outcome directly, paired with the diagnostic it prints. -/
def verify_detached_signature (eng : Engine) (signatureStr : Bytes) (payload : Bytes)
    (identifier : Nat) : Bool × Report :=
  let signatureBegin := firstLine signatureStr
  if signatureBegin = PGP_MARKER then
    match eng.verifyDetached signatureStr payload with
    | .ok verificationResult =>
      match verify_gpg_signature_result verificationResult with
      | .ok () => (true, .trusted identifier)
      | .error e => (false, .invalid identifier e)
    | .err e => (false, .engineError identifier e)
  else if signatureBegin = SSH_MARKER then
    (false, .sshUnsupported identifier)
  else
    (false, .unknownMarker identifier signatureBegin)

/-- Object-database lookup by oid. -/
def findObject (repo : Repo) (oid : Nat) : Option Obj :=
  repo.objects.lookup oid

/-- Model of `repo.find_commit(oid)`. -/
def find_commit (repo : Repo) (oid : Nat) : Except GitError CommitObj :=
  match findObject repo oid with
  | some (.commit c) => .ok c
  | _ => .error (.commitNotFound oid)

/-- Model of `verify_commit` (src/verify.rs lines 134-162).  The
`signature_data.as_str().unwrap_or("")` call succeeds exactly when the header
bytes are valid UTF-8 and otherwise substitutes the empty string; the
diagnostics printed on the way are returned alongside the verdict. -/
def verify_commit (eng : Engine) (repo : Repo) (commitOid : Nat) :
    Except GitError (Bool × List Report) :=
  match find_commit repo commitOid with
  | .error e => .error e
  | .ok commit =>
    match commit.gpgsig with
    | none => .error .headerFieldMissing
    | some signatureData =>
      let signatureStr := if isValidUtf8 signatureData then signatureData else []
      let textToVerify := signed_commit_data commit
      let r := verify_detached_signature eng signatureStr textToVerify commitOid
      .ok (r.1, [r.2])

/-- First byte offset at which `pat` occurs in `hay`, the model of Rust
`str::find` for an ASCII pattern. -/
def findSub (hay pat : Bytes) : Option Nat :=
  (List.range (hay.length + 1)).find? (fun i => pat.isPrefixOf (hay.drop i))

/-- Model of `verify_tag` (src/verify.rs lines 164-220): classify the object,
read its raw bytes, require UTF-8, split at the first armored-block marker and
verify the trailing block against the leading content. -/
def verify_tag (eng : Engine) (repo : Repo) (oid : Nat) :
    Except GitError (Bool × List Report) :=
  match findObject repo oid with
  | none => .error (.other "object not found")
  | some (.commit _) => .ok (false, [.lightweightTag oid])
  | some (.tag t) =>
    if isValidUtf8 t.rawBytes then
      match findSub t.rawBytes (ascii "-----BEGIN") with
      | some sigStartPos =>
        let tagContent := t.rawBytes.take sigStartPos
        let signatureData := t.rawBytes.drop sigStartPos
        let r := verify_detached_signature eng signatureData tagContent oid
        .ok (r.1, [r.2])
      | none => .ok (false, [.tagSignatureNotFound])
    else .error (.other "Invalid UTF-8 in tag")

/-- Sorting flags of a `git2::Revwalk` (`git2::Sort` bitflags, restricted to
the two flags the tool mentions). -/
structure SortFlags where
  topological : Bool
  reverse : Bool
deriving DecidableEq, Repr

/-- The default sort mode of a fresh revwalk (`Sort::NONE`). -/
def SORT_NONE : SortFlags := ⟨false, false⟩

/-- The `git2::Sort::TOPOLOGICAL` flag value. -/
def SORT_TOPOLOGICAL : SortFlags := ⟨true, false⟩

/-- The `git2::Sort::REVERSE` flag value. -/
def SORT_REVERSE : SortFlags := ⟨false, true⟩

/-- A revision walker: pushed tips, hidden roots and the current sort mode. -/
structure Revwalk where
  tips : List Nat
  hidden : List Nat
  sorting : SortFlags
deriving DecidableEq, Repr

/-- Model of `Revwalk::set_sorting` / `git_revwalk_sorting`: the walker's sort
mode is assigned the given flags — it replaces the previous mode, it does not
accumulate into it. -/
def set_sorting (w : Revwalk) (sortMode : SortFlags) : Revwalk :=
  { w with sorting := sortMode }

/-- Peel an oid to a commit oid as libgit2 does when pushing a committish:
commits peel to themselves, an annotated tag to its target commit (one level
of tag nesting suffices for this tool). -/
def peelToCommitOid (repo : Repo) (oid : Nat) : Option Nat :=
  match findObject repo oid with
  | some (.commit _) => some oid
  | some (.tag t) =>
    match findObject repo t.targetCommit with
    | some (.commit _) => some t.targetCommit
    | _ => none
  | none => none

/-- Model of `push_range "{from}..{to}"`: resolve both endpoints to commits,
hide `from`, push `to`. -/
def push_range (repo : Repo) (w : Revwalk) (fromOid toOid : Nat) : Except GitError Revwalk :=
  match peelToCommitOid repo fromOid, peelToCommitOid repo toOid with
  | some f, some t => .ok { w with tips := w.tips ++ [t], hidden := w.hidden ++ [f] }
  | _, _ => .error (.other "revspec not found")

/-- Parent ids of a commit object (empty for non-commits). -/
def commitParents (repo : Repo) (oid : Nat) : List Nat :=
  match findObject repo oid with
  | some (.commit c) => c.parents
  | _ => []

/-- Commit timestamp used by the walk's priority queue (0 for non-commits). -/
def commitTime (repo : Repo) (oid : Nat) : Int :=
  match findObject repo oid with
  | some (.commit c) => c.time
  | _ => 0

/-- Fuel bound generous enough for every walk over the object database. -/
def walkFuel (repo : Repo) : Nat :=
  (repo.objects.length + 1) * (repo.objects.length + 1)

/-- Fuelled graph search collecting every oid reachable through parent edges. -/
def reachableAux (repo : Repo) : Nat → List Nat → List Nat → List Nat
  | 0, _, visited => visited
  | _ + 1, [], visited => visited
  | fuel + 1, o :: frontier, visited =>
    if o ∈ visited then reachableAux repo fuel frontier visited
    else reachableAux repo fuel (frontier ++ commitParents repo o) (visited ++ [o])

/-- Oids reachable from `start` (inclusive) through parent edges. -/
def reachableFrom (repo : Repo) (start : Nat) : List Nat :=
  reachableAux repo (walkFuel repo) [start] []

/-- The set walked by a revwalk: everything reachable from a pushed tip and
not reachable from a hidden root (libgit2 propagates the uninteresting mark
through all ancestors). -/
def includedList (repo : Repo) (w : Revwalk) : List Nat :=
  let hiddenReach := (w.hidden.map (reachableFrom repo)).flatten
  ((w.tips.map (reachableFrom repo)).flatten.filter (fun o => o ∉ hiddenReach)).dedup

/-- Pop the earliest-inserted element of maximal commit time — the behaviour
of libgit2's time-ordered priority queue. -/
def popMaxTime (repo : Repo) : List Nat → Option (Nat × List Nat)
  | [] => none
  | o :: rest =>
    match popMaxTime repo rest with
    | none => some (o, [])
    | some (o2, rest2) =>
      if commitTime repo o2 > commitTime repo o then some (o2, o :: rest2)
      else some (o, rest)

/-- The default (no `TOPOLOGICAL` flag) iteration order of a libgit2 revwalk
over the included set: repeatedly pop the queued commit with the greatest
commit time and enqueue its included parents. -/
def timeWalkAux (repo : Repo) (incl : List Nat) : Nat → List Nat → List Nat → List Nat
  | 0, _, _ => []
  | fuel + 1, queue, seen =>
    match popMaxTime repo queue with
    | none => []
    | some (o, rest) =>
      let ps := (commitParents repo o).filter (fun p => p ∈ incl && p ∉ seen)
      o :: timeWalkAux repo incl fuel (rest ++ ps) (seen ++ ps)

/-- Whether every parent of `o` that lies in the walked set has been emitted. -/
def parentsEmitted (repo : Repo) (incl emitted : List Nat) (o : Nat) : Bool :=
  (commitParents repo o).all (fun p => p ∉ incl || p ∈ emitted)

/-- A topological order (parents before children) of the walked set, obtained
Kahn-style; reversed it yields the children-before-parents order libgit2
produces under `GIT_SORT_TOPOLOGICAL`. -/
def kahnParentsFirst (repo : Repo) (incl : List Nat) : Nat → List Nat → List Nat → List Nat
  | 0, _, _ => []
  | fuel + 1, pending, emitted =>
    match pending.find? (fun o => parentsEmitted repo incl emitted o) with
    | none => []
    | some o => o :: kahnParentsFirst repo incl fuel (pending.erase o) (emitted ++ [o])

/-- The sequence a revwalk yields: the included set, ordered according to the
walker's current sort mode (`TOPOLOGICAL` selects the topological iterator,
otherwise the default time-ordered iterator runs; `REVERSE` reverses the
selected iterator's output). -/
def revwalkOutput (repo : Repo) (w : Revwalk) : List Nat :=
  let incl := includedList repo w
  if w.sorting.topological then
    let l := (kahnParentsFirst repo incl (walkFuel repo) incl []).reverse
    if w.sorting.reverse then l.reverse else l
  else
    let start := w.tips.filter (fun t => t ∈ incl)
    let l := timeWalkAux repo incl (walkFuel repo) start start
    if w.sorting.reverse then l.reverse else l

/-- The commit sequence `verify_from_ref` iterates over (src/verify.rs lines
99-107): a fresh walker, `push_range "{tag}..{head}"`, then
`set_sorting(TOPOLOGICAL)` followed by `set_sorting(REVERSE)`. -/
def resolvedRange (repo : Repo) (fromTagOid : Nat) : Except GitError (List Nat) :=
  let w0 : Revwalk := { tips := [], hidden := [], sorting := SORT_NONE }
  match push_range repo w0 fromTagOid repo.headOid with
  | .error e => .error e
  | .ok w1 =>
    let w2 := set_sorting w1 SORT_TOPOLOGICAL
    let w3 := set_sorting w2 SORT_REVERSE
    .ok (revwalkOutput repo w3)

/-- Outcome of the commit loop of `verify_from_ref`: the boolean result, the
diagnostics printed, and the commits actually passed to `verify_commit`, in
order. -/
structure VerifyPass where
  allValid : Bool
  reports : List Report
  evaluated : List Nat
deriving DecidableEq, Repr

/-- The `for oid in commits` loop of `verify_from_ref` (src/verify.rs lines
117-128): stop and return false at the first non-`Ok(true)` verdict; an `Err`
from `verify_commit` prints the not-signed diagnostic and also returns false. -/
def verifyCommitList (eng : Engine) (repo : Repo) : List Nat → VerifyPass
  | [] => ⟨true, [], []⟩
  | oid :: rest =>
    match verify_commit eng repo oid with
    | .ok (true, rs) =>
      let p := verifyCommitList eng repo rest
      ⟨p.allValid, rs ++ p.reports, oid :: p.evaluated⟩
    | .ok (false, rs) => ⟨false, rs, [oid]⟩
    | .error _ => ⟨false, [.notSignedWithGpg oid], [oid]⟩

/-- Model of `verify_from_ref` (src/verify.rs lines 93-131). -/
def verify_from_ref (eng : Engine) (repo : Repo) (fromTagOid : Nat) :
    Except GitError VerifyPass :=
  match resolvedRange repo fromTagOid with
  | .error e => .error e
  | .ok commits => .ok (verifyCommitList eng repo commits)

/-- Decimal digits of a Nat, the model of rendering an id or integer with
`Display`. -/
def showNat (n : Nat) : Bytes := (Nat.toDigits 10 n).map Char.toNat

/-- Rendering of an `i64` with `Display`. -/
def showInt (n : Int) : Bytes :=
  if n < 0 then 45 :: showNat n.natAbs else showNat n.natAbs

/-- Left-pad a digit string with ASCII zeros up to `len` characters. -/
def padZeros (len : Nat) (ds : Bytes) : Bytes :=
  List.replicate (len - ds.length) 48 ++ ds

/-- Rendering of an `i32` with format `{:+05}`: explicit sign, zero-padded to
width 5 (so the magnitude occupies at least 4 characters). -/
def showPlusPad5 (n : Int) : Bytes :=
  (if n < 0 then [45] else [43]) ++ padZeros 4 (showNat n.natAbs)

/-- The fixed checkpoint tag message (git.rs line 70). -/
def base_message : Bytes := ascii "Verification tag managed by git-sign-verifier"

/-- The raw tag metadata assembled by `add_tag` (git.rs lines 74-83): object,
type, tag name, tagger line, blank separator, message, trailing newline.  The
model renders the target id with its decimal digits where git renders the hex
oid. -/
def tag_content (commitId : Nat) (user : GitUser) (seconds offsetMinutes : Int) : Bytes :=
  ascii "object " ++ showNat commitId ++
  ascii "\ntype commit\ntag SIGN_VERIFIED\ntagger " ++
  user.name ++ ascii " <" ++ user.email ++ ascii "> " ++
  showInt seconds ++ ascii " " ++ showPlusPad5 (Int.tdiv (offsetMinutes * 100) 60) ++
  ascii "\n\n" ++ base_message ++ ascii "\n"

/-- An oid not yet present in the object database, standing for the id the
content-addressed `odb.write` assigns to the freshly assembled tag object. -/
def freshOid (repo : Repo) : Nat := (repo.objects.map Prod.fst).foldr max 0 + 1

/-- Model of `add_tag` (git.rs lines 61-111): read the local user, assemble
the tag metadata, sign it detached and armored, concatenate metadata and
signature, write the bytes as a new tag object, and force-update
`refs/tags/SIGN_VERIFIED` to the new object. -/
def add_tag (eng : Engine) (repo : Repo) (commitOid : Nat) : Except GitError Repo :=
  match repo.user with
  | none => .error (.other "config value not found")
  | some user =>
    let content := tag_content commitOid user repo.taggerTime repo.taggerOffsetMinutes
    match eng.signDetached content with
    | none => .error (.other "Failed to sign tag")
    | some signature =>
      let signedTagContent := content ++ signature
      let tagOid := freshOid repo
      .ok { repo with
            objects := repo.objects ++ [(tagOid, Obj.tag ⟨commitOid, signedTagContent⟩)],
            tagRef := some tagOid }

/-- Model of `check_tag_exists` (git.rs lines 13-18): the oid the
`refs/tags/SIGN_VERIFIED` reference points at, if the reference exists. -/
def check_tag_exists (repo : Repo) : Option Nat := repo.tagRef

deriving instance DecidableEq for Except

/-- Everything observable about one `verify_command` invocation: its returned
value, the repository state it leaves behind, the diagnostics printed, the
commits evaluated by the range loop, and whether `add_tag` was invoked. -/
structure CmdOutcome where
  result : Except GitError Bool
  repo : Repo
  reports : List Report
  evaluated : List Nat
  addTagCalled : Bool
deriving DecidableEq, Repr

/-- Model of `verify_command` (src/verify.rs lines 8-42): resolve the
checkpoint reference, verify the checkpoint tag itself, verify the commit
range, and only when everything is trusted sign and write the new checkpoint
at HEAD. -/
def verify_command (eng : Engine) (repo : Repo) : CmdOutcome :=
  match check_tag_exists repo with
  | none => ⟨.error (.other "Tag SIGN_VERIFIED does not exist!"), repo, [], [], false⟩
  | some tagOid =>
    match verify_tag eng repo tagOid with
    | .error e => ⟨.error e, repo, [], [], false⟩
    | .ok (false, rs) => ⟨.ok false, repo, rs, [], false⟩
    | .ok (true, rs) =>
      match verify_from_ref eng repo tagOid with
      | .error e => ⟨.error e, repo, rs, [], false⟩
      | .ok pass =>
        if pass.allValid then
          match peelToCommitOid repo repo.headOid with
          | none =>
            ⟨.error (.other "head does not peel to a commit"), repo,
             rs ++ pass.reports, pass.evaluated, false⟩
          | some toCommit =>
            match add_tag eng repo toCommit with
            | .error e => ⟨.error e, repo, rs ++ pass.reports, pass.evaluated, true⟩
            | .ok repo2 => ⟨.ok true, repo2, rs ++ pass.reports, pass.evaluated, true⟩
        else ⟨.ok false, repo, rs ++ pass.reports, pass.evaluated, false⟩

/-- Spec-side order property for a commit sequence: every commit of the
sequence appears after each of its parents that the sequence contains — i.e.
the sequence is a topological order reversed so ancestors come first. -/
def parentsFirstAux (repo : Repo) : List Nat → List Nat → Bool
  | _, [] => true
  | emitted, o :: rest =>
    (commitParents repo o).all (fun p => p ∈ emitted || (p ∉ (o :: rest))) &&
    parentsFirstAux repo (emitted ++ [o]) rest

/-- Whether a sequence lists parents before their children (see
`parentsFirstAux`). -/
def parentsFirst (repo : Repo) (l : List Nat) : Bool := parentsFirstAux repo [] l

/-- A PGP armored signature block used by the concrete examples. -/
def goodSig : Bytes :=
  ascii "-----BEGIN PGP SIGNATURE-----\n\nabc\n-----END PGP SIGNATURE-----\n"

/-- A per-signer outcome with a fully valid, fully trusted key. -/
def trustedOutcome : SignerOutcome :=
  { fingerprint := ascii "F00F"
    keyRevoked := false, keyExpired := false, sigExpired := false, keyMissing := false
    valid := true, validity := .full }

/-- A demo engine: recognises exactly `goodSig`, and signs successfully. -/
def demoEngine : Engine :=
  { verifyDetached := fun sig _ => if sig = goodSig then .ok [trustedOutcome] else .ok []
    signDetached := fun _ => some goodSig }

/-- The demo engine with a broken signing key: verification works,
`sign_detached` fails. -/
def failSignEngine : Engine :=
  { verifyDetached := fun sig _ => if sig = goodSig then .ok [trustedOutcome] else .ok []
    signDetached := fun _ => none }

/-- Metadata part of the demo checkpoint tag object (its bytes contain no
armored-block marker). -/
def demoTagContent : Bytes :=
  ascii "object 1\ntype commit\ntag SIGN_VERIFIED\ntagger T <t@e> 0 +0000\n\nVerification tag managed by git-sign-verifier\n"

/-- The demo checkpoint tag object: metadata followed by `goodSig`, targeting
commit 1. -/
def demoTag : TagObj := ⟨1, demoTagContent ++ goodSig⟩

/-- Root commit of the demo repositories (the checkpoint's target). -/
def demoCommit1 : CommitObj :=
  { parents := [], time := 1
    rawHeader := ascii "tree 7\nauthor A <a@e> 1 +0000\ncommitter A <a@e> 1 +0000\n"
    message := ascii "root\n"
    gpgsig := some goodSig }

/-- A signed child commit with a gpgsig header embedded in its raw header. -/
def demoCommit2 : CommitObj :=
  { parents := [1], time := 2
    rawHeader := ascii "tree 8\nparent 1\nauthor A <a@e> 2 +0000\ncommitter A <a@e> 2 +0000\ngpgsig -----BEGIN PGP SIGNATURE-----\n \n abc\n -----END PGP SIGNATURE-----\n"
    message := ascii "work\n"
    gpgsig := some goodSig }

/-- Demo repository: checkpoint tag 10 at commit 1, HEAD at signed commit 2. -/
def demoRepo : Repo :=
  { objects := [(1, .commit demoCommit1), (2, .commit demoCommit2), (10, .tag demoTag)]
    tagRef := some 10
    headOid := 2
    user := some ⟨ascii "T", ascii "t@e"⟩
    taggerTime := 5
    taggerOffsetMinutes := 120 }

/-- Demo repository whose HEAD commit carries no gpgsig header at all. -/
def unsignedRepo : Repo :=
  { demoRepo with
    objects := [(1, .commit demoCommit1),
                (2, .commit { demoCommit2 with gpgsig := none }),
                (10, .tag demoTag)] }

/-- Demo repository whose HEAD commit's gpgsig header bytes are not valid
UTF-8. -/
def badUtf8Repo : Repo :=
  { demoRepo with
    objects := [(1, .commit demoCommit1),
                (2, .commit { demoCommit2 with gpgsig := some [255] }),
                (10, .tag demoTag)] }

/-- Demo repository whose checkpoint tag carries no armored block at all. -/
def tagNoSigRepo : Repo :=
  { demoRepo with
    objects := [(1, .commit demoCommit1), (2, .commit demoCommit2),
                (10, .tag ⟨1, demoTagContent⟩)] }

/-- Linear four-commit repository for the fail-fast example: 1 ← 2 ← 3 ← 4,
checkpoint at 1, HEAD at 4; commit 3 is unsigned, 2 and 4 are signed. -/
def chainRepo : Repo :=
  { objects := [(1, .commit demoCommit1),
                (2, .commit demoCommit2),
                (3, .commit { demoCommit2 with parents := [2], time := 3, gpgsig := none }),
                (4, .commit { demoCommit2 with parents := [3], time := 4 }),
                (10, .tag demoTag)]
    tagRef := some 10
    headOid := 4
    user := some ⟨ascii "T", ascii "t@e"⟩
    taggerTime := 5
    taggerOffsetMinutes := 120 }

/-- Clock-skewed merge history: root 1 (checkpoint); commit 5 on a side view
with timestamp 200; commit 6 is 5's child but timestamped 10 (skew); merge 7
(timestamp 100) has parents 6 and 5; HEAD at 7. -/
def skewRepo : Repo :=
  { objects := [(1, .commit demoCommit1),
                (5, .commit { demoCommit2 with parents := [1], time := 200 }),
                (6, .commit { demoCommit2 with parents := [5], time := 10 }),
                (7, .commit { demoCommit2 with parents := [6, 5], time := 100 }),
                (10, .tag demoTag)]
    tagRef := some 10
    headOid := 7
    user := some ⟨ascii "T", ascii "t@e"⟩
    taggerTime := 5
    taggerOffsetMinutes := 120 }

/-- The identifier a diagnostic names, when it names one. -/
def reportId : Report → Option Nat
  | .trusted i => some i
  | .invalid i _ => some i
  | .engineError i _ => some i
  | .sshUnsupported i => some i
  | .unknownMarker i _ => some i
  | .notSignedWithGpg i => some i
  | .tagSignatureNotFound => none
  | .lightweightTag i => some i

/-- Whether a diagnostic is the trusted-signature success message. -/
def isTrustedReport : Report → Bool
  | .trusted _ => true
  | _ => false

/-- Spec-side restatement of the header filter: walk the raw header lines; a
line beginning with the signature keyword starts the omitted block, a
subsequent line beginning with a space continues it, and the first line
matching neither ends the omission and is kept; the kept lines are returned
verbatim in order. -/
def specOmitFilter : Bool → List Bytes → List Bytes
  | _, [] => []
  | inBlock, l :: rest =>
    if (ascii "gpgsig ").isPrefixOf l then specOmitFilter true rest
    else if inBlock && (ascii " ").isPrefixOf l then specOmitFilter true rest
    else l :: specOmitFilter false rest

/-- Spec-side reconstructed payload: the kept header lines concatenated
verbatim, exactly one blank line, then the raw message bytes. -/
def reconstructedPayloadSpec (c : CommitObj) : Bytes :=
  joinBytes (specOmitFilter false (splitKeepNL c.rawHeader)) ++ [10] ++ c.message

lemma verifyGpgLoop_ok_iff (sigs : List SignerOutcome) (errors : List String) :
    verifyGpgLoop sigs errors = .ok () ↔
      sigs.any (fun s => trustedValidity s.validity) = true := by
  induction sigs generalizing errors with
  | nil => cases errors <;> simp [verifyGpgLoop]
  | cons s rest ih =>
    simp only [verifyGpgLoop, List.any_cons]
    by_cases h : trustedValidity s.validity
    · simp [h]
    · simp [h, ih]

lemma filterHeaderLines_eq_join (ls : List Bytes) (b : Bool) :
    filterHeaderLines ls b = joinBytes (specOmitFilter b ls) := by
  induction ls generalizing b with
  | nil => simp [filterHeaderLines, specOmitFilter, joinBytes]
  | cons l rest ih =>
    by_cases h1 : (ascii "gpgsig ").isPrefixOf l
    · simp [filterHeaderLines, specOmitFilter, h1, ih]
    · by_cases h2 : b && (ascii " ").isPrefixOf l
      · simp [filterHeaderLines, specOmitFilter, h1, h2, ih]
      · simp [filterHeaderLines, specOmitFilter, h1, h2, ih, joinBytes]

lemma joinBytes_nil : joinBytes [] = [] := rfl

lemma joinBytes_cons (l : Bytes) (ls : List Bytes) :
    joinBytes (l :: ls) = l ++ joinBytes ls := rfl

lemma joinBytes_splitKeepNLAux (bs acc : Bytes) :
    joinBytes (splitKeepNLAux bs acc) = acc.reverse ++ bs := by
  induction bs generalizing acc with
  | nil => by_cases h : acc = [] <;> simp [splitKeepNLAux, joinBytes_nil, joinBytes_cons, h]
  | cons b rest ih =>
    by_cases h : b = 10
    · simp [splitKeepNLAux, joinBytes_cons, h, ih]
    · simp [splitKeepNLAux, h, ih]

/-- C3: the claim reads "the trust decision returns Trusted iff at least one
signer outcome has none of the failure flags set".  That fails on the code
(see its counterexample); this is the amended claim: the decision returns
Trusted iff at least one signer outcome carries validity Marginal, Full or
Ultimate, and the failure flags — of that signer or any other — never
influence the verdict (they only select the diagnostic message), so signer
entries are evaluated independently. -/
theorem C3_trust_decision_by_validity (sigs : List SignerOutcome) :
    (verify_gpg_signature_result sigs = .ok () ↔
       ∃ s ∈ sigs, trustedValidity s.validity = true) ∧
    (∀ f : SignerOutcome → SignerOutcome, (∀ s, (f s).validity = s.validity) →
       (verify_gpg_signature_result (sigs.map f) = .ok () ↔
          verify_gpg_signature_result sigs = .ok ())) := by
  constructor
  · rw [verify_gpg_signature_result, verifyGpgLoop_ok_iff]
    simp [List.any_eq_true]
  · intro f hf
    rw [verify_gpg_signature_result, verify_gpg_signature_result,
        verifyGpgLoop_ok_iff, verifyGpgLoop_ok_iff]
    simp [List.any_map, Function.comp_def, hf]

/-- C3 witness: the amended trust-decision theorem instantiated on a single
fully-trusted signer outcome. -/
theorem C3_trust_decision_by_validity_witness :
    (verify_gpg_signature_result [trustedOutcome] = .ok () ↔
       ∃ s ∈ [trustedOutcome], trustedValidity s.validity = true) ∧
    (∀ f : SignerOutcome → SignerOutcome, (∀ s, (f s).validity = s.validity) →
       (verify_gpg_signature_result ([trustedOutcome].map f) = .ok () ↔
          verify_gpg_signature_result [trustedOutcome] = .ok ())) :=
  C3_trust_decision_by_validity [trustedOutcome]

/-- A signer outcome that is clean (no failure flag set) yet carries validity
Unknown. -/
def cleanUnknownOutcome : SignerOutcome :=
  { fingerprint := [], keyRevoked := false, keyExpired := false, sigExpired := false
    keyMissing := false, valid := true, validity := .unknown }

/-- C3 counterexample: a verification result with a single signer outcome
having none of the failure flags set, on which the trust decision nevertheless
does not return Trusted — refuting "Trusted iff at least one signer outcome
has none of the failure flags set". -/
theorem C3_counterexample_clean_signer_rejected :
    noFailureFlags cleanUnknownOutcome = true ∧
    verify_gpg_signature_result [cleanUnknownOutcome] ≠ .ok () := by
  exact ⟨rfl, by decide⟩

/-- C7: for every commit, the reconstructed signed payload equals the spec's
description — all raw header lines verbatim and in original order except the
gpgsig block (a line beginning with the signature keyword starts the omitted
block, lines beginning with a space continue it, the first line matching
neither ends it and is emitted), followed by exactly one blank line, followed
by the raw message bytes; and the header lines being filtered are a verbatim
partition of the raw header bytes. -/
theorem C7_payload_reconstruction (c : CommitObj) :
    signed_commit_data c = reconstructedPayloadSpec c ∧
    joinBytes (splitKeepNL c.rawHeader) = c.rawHeader := by
  constructor
  · simp [signed_commit_data, reconstructedPayloadSpec, filterHeaderLines_eq_join]
  · simp [splitKeepNL, joinBytes_splitKeepNLAux]

/-- C7 witness: the reconstruction theorem instantiated on the demo commit
that embeds a gpgsig block in its raw header. -/
theorem C7_payload_reconstruction_witness :
    signed_commit_data demoCommit2 = reconstructedPayloadSpec demoCommit2 ∧
    joinBytes (splitKeepNL demoCommit2.rawHeader) = demoCommit2.rawHeader :=
  C7_payload_reconstruction demoCommit2

lemma key_le_fold_of_mem (l : List (Nat × Obj)) (p : Nat × Obj) (h : p ∈ l) :
    p.1 ≤ (l.map Prod.fst).foldr max 0 := by
  induction l with
  | nil => cases h
  | cons q rest ih =>
    rcases List.mem_cons.mp h with h1 | h1
    · subst h1; exact le_max_left _ _
    · exact le_trans (ih h1) (le_max_right _ _)

lemma lookup_eq_none_of_keys_lt (l : List (Nat × Obj)) (k : Nat)
    (h : ∀ p ∈ l, p.1 < k) : l.lookup k = none := by
  induction l with
  | nil => rfl
  | cons q rest ih =>
    obtain ⟨k', v'⟩ := q
    have hq : k' < k := h (k', v') (List.mem_cons_self _ rest)
    have hk : (k == k') = false := by
      simp only [beq_eq_false_iff_ne, ne_eq]
      omega
    simp only [List.lookup, hk]
    exact ih (fun p hp => h p (List.mem_cons_of_mem _ hp))

lemma findObject_freshOid (repo : Repo) : findObject repo (freshOid repo) = none := by
  apply lookup_eq_none_of_keys_lt
  intro p hp
  have := key_le_fold_of_mem repo.objects p hp
  simp only [freshOid]
  omega

lemma lookup_append_single (l : List (Nat × Obj)) (k : Nat) (v : Obj)
    (h : l.lookup k = none) : (l ++ [(k, v)]).lookup k = some v := by
  induction l with
  | nil => simp [List.lookup]
  | cons q rest ih =>
    obtain ⟨k', v'⟩ := q
    by_cases hk : k = k'
    · simp [List.lookup, hk] at h
    · have hkb : (k == k') = false := by
        simp only [beq_eq_false_iff_ne, ne_eq]
        exact hk
      simp only [List.lookup, hkb] at h
      simp only [List.cons_append, List.lookup, hkb]
      exact ih h

/-- C1: advancement is all-or-nothing — whenever `verify_command` returns
`Ok(false)` (a non-Trusted verdict anywhere, the checkpoint itself included),
`add_tag` is never invoked and the repository state, the checkpoint tag
reference included, is left exactly as it was. -/
theorem C1_all_or_nothing (eng : Engine) (repo : Repo)
    (h : (verify_command eng repo).result = .ok false) :
    (verify_command eng repo).repo = repo ∧
    (verify_command eng repo).addTagCalled = false ∧
    (verify_command eng repo).repo.tagRef = repo.tagRef := by
  cases htag : check_tag_exists repo with
  | none => simp [verify_command, htag] at h
  | some tagOid =>
    cases hvt : verify_tag eng repo tagOid with
    | error e => simp [verify_command, htag, hvt] at h
    | ok br =>
      obtain ⟨b, rs⟩ := br
      cases b with
      | false => simp [verify_command, htag, hvt]
      | true =>
        cases hvf : verify_from_ref eng repo tagOid with
        | error e => simp [verify_command, htag, hvt, hvf] at h
        | ok pass =>
          by_cases hp : pass.allValid = true
          · cases hpe : peelToCommitOid repo repo.headOid with
            | none => simp [verify_command, htag, hvt, hvf, hp, hpe] at h
            | some toCommit =>
              cases hat : add_tag eng repo toCommit with
              | error e => simp [verify_command, htag, hvt, hvf, hp, hpe, hat] at h
              | ok repo2 => simp [verify_command, htag, hvt, hvf, hp, hpe, hat] at h
          · simp only [Bool.not_eq_true] at hp
            simp [verify_command, htag, hvt, hvf, hp]

/-- C1 witness: on the demo repository whose HEAD commit is unsigned,
`verify_command` returns `Ok(false)` and the state is untouched. -/
theorem C1_all_or_nothing_witness :
    (verify_command demoEngine unsignedRepo).result = .ok false ∧
    ((verify_command demoEngine unsignedRepo).repo = unsignedRepo ∧
     (verify_command demoEngine unsignedRepo).addTagCalled = false ∧
     (verify_command demoEngine unsignedRepo).repo.tagRef = unsignedRepo.tagRef) :=
  ⟨by decide, C1_all_or_nothing demoEngine unsignedRepo (by decide)⟩

/-- C2 counterexample: an invocation in which the checkpoint tag verifies
Trusted and every commit in the range verifies Trusted, yet `verify_command`
does not return `Ok(true)` and the reference is not updated — because signing
the new checkpoint fails and the `?` on `add_tag` surfaces `Err`.  This
refutes the unconditional claim. -/
theorem C2_counterexample_signing_failure :
    verify_tag failSignEngine demoRepo 10 = .ok (true, [.trusted 10]) ∧
    verify_from_ref failSignEngine demoRepo 10 = .ok ⟨true, [.trusted 2], [2]⟩ ∧
    (verify_command failSignEngine demoRepo).result = .error (.other "Failed to sign tag") ∧
    (verify_command failSignEngine demoRepo).repo.tagRef = demoRepo.tagRef := by
  refine ⟨by decide, by decide, by decide, by decide⟩

/-- C2 (amended): when the checkpoint's own signature verifies Trusted, every
commit in the computed range verifies Trusted, and the subsequent signing and
writing of the new checkpoint succeed, `verify_command` returns `Ok(true)` and
the checkpoint reference is force-overwritten to name a freshly written signed
tag object whose target is the HEAD commit. -/
theorem C2_checkpoint_advanced (eng : Engine) (repo repo2 : Repo) (tagOid toCommit : Nat)
    (rs : List Report) (pass : VerifyPass)
    (h1 : check_tag_exists repo = some tagOid)
    (h2 : verify_tag eng repo tagOid = .ok (true, rs))
    (h3 : verify_from_ref eng repo tagOid = .ok pass)
    (h4 : pass.allValid = true)
    (h5 : peelToCommitOid repo repo.headOid = some toCommit)
    (h6 : add_tag eng repo toCommit = .ok repo2) :
    (verify_command eng repo).result = .ok true ∧
    (verify_command eng repo).repo = repo2 ∧
    repo2.tagRef = some (freshOid repo) ∧
    findObject repo (freshOid repo) = none ∧
    ∃ t : TagObj, findObject repo2 (freshOid repo) = some (.tag t) ∧
      t.targetCommit = toCommit := by
  refine ⟨?_, ?_, ?_, findObject_freshOid repo, ?_⟩
  · simp [verify_command, h1, h2, h3, h4, h5, h6]
  · simp [verify_command, h1, h2, h3, h4, h5, h6]
  · cases hu : repo.user with
    | none => simp [add_tag, hu] at h6
    | some user =>
      cases hs : eng.signDetached
          (tag_content toCommit user repo.taggerTime repo.taggerOffsetMinutes) with
      | none => simp [add_tag, hu, hs] at h6
      | some signature =>
        simp [add_tag, hu, hs] at h6
        rw [← h6]
  · cases hu : repo.user with
    | none => simp [add_tag, hu] at h6
    | some user =>
      cases hs : eng.signDetached
          (tag_content toCommit user repo.taggerTime repo.taggerOffsetMinutes) with
      | none => simp [add_tag, hu, hs] at h6
      | some signature =>
        simp [add_tag, hu, hs] at h6
        refine ⟨⟨toCommit,
          tag_content toCommit user repo.taggerTime repo.taggerOffsetMinutes ++ signature⟩,
          ?_, rfl⟩
        rw [← h6]
        exact lookup_append_single repo.objects (freshOid repo) _ (findObject_freshOid repo)

/-- The repository state the demo run leaves behind: the fresh tag object 11
targeting HEAD commit 2, and the checkpoint reference moved onto it. -/
def demoAdvancedRepo : Repo :=
  { demoRepo with
    objects := demoRepo.objects ++
      [(11, .tag ⟨2, tag_content 2 ⟨ascii "T", ascii "t@e"⟩ 5 120 ++ goodSig⟩)]
    tagRef := some 11 }

/-- C2 witness: the amended theorem instantiated on the demo repository. -/
theorem C2_checkpoint_advanced_witness :
    (verify_command demoEngine demoRepo).result = .ok true ∧
    (verify_command demoEngine demoRepo).repo = demoAdvancedRepo ∧
    demoAdvancedRepo.tagRef = some (freshOid demoRepo) ∧
    findObject demoRepo (freshOid demoRepo) = none ∧
    ∃ t : TagObj, findObject demoAdvancedRepo (freshOid demoRepo) = some (.tag t) ∧
      t.targetCommit = 2 :=
  C2_checkpoint_advanced demoEngine demoRepo demoAdvancedRepo 10 2 [.trusted 10]
    ⟨true, [.trusted 2], [2]⟩ (by decide) (by decide) (by decide) (by decide)
    (by decide) (by decide)

/-- C4: the checkpoint's own signature is verified first; a checkpoint tag
whose verdict is not Trusted makes `verify_command` return `Ok(false)` before
any commit in the range is evaluated, and the checkpoint verdict is produced
by the very same classification-and-trust function (`verify_detached_signature`)
used for commits. -/
theorem C4_checkpoint_verified_first (eng : Engine) (repo : Repo) (tagOid : Nat)
    (rs : List Report)
    (h1 : check_tag_exists repo = some tagOid)
    (h2 : verify_tag eng repo tagOid = .ok (false, rs)) :
    (verify_command eng repo).result = .ok false ∧
    (verify_command eng repo).evaluated = [] ∧
    (verify_command eng repo).addTagCalled = false ∧
    ∀ (t : TagObj) (sigStartPos : Nat),
      findObject repo tagOid = some (.tag t) →
      isValidUtf8 t.rawBytes = true →
      findSub t.rawBytes (ascii "-----BEGIN") = some sigStartPos →
      verify_tag eng repo tagOid =
        .ok ((verify_detached_signature eng (t.rawBytes.drop sigStartPos)
               (t.rawBytes.take sigStartPos) tagOid).1,
             [(verify_detached_signature eng (t.rawBytes.drop sigStartPos)
               (t.rawBytes.take sigStartPos) tagOid).2]) := by
  refine ⟨?_, ?_, ?_, ?_⟩
  · simp [verify_command, h1, h2]
  · simp [verify_command, h1, h2]
  · simp [verify_command, h1, h2]
  · intro t sigStartPos hft hutf hfs
    simp [verify_tag, hft, hutf, hfs]

/-- C4 witness: on the repository whose checkpoint tag has no signature block,
`verify_command` rejects with no commit evaluated. -/
theorem C4_checkpoint_verified_first_witness :
    check_tag_exists tagNoSigRepo = some 10 ∧
    verify_tag demoEngine tagNoSigRepo 10 = .ok (false, [.tagSignatureNotFound]) ∧
    ((verify_command demoEngine tagNoSigRepo).result = .ok false ∧
     (verify_command demoEngine tagNoSigRepo).evaluated = [] ∧
     (verify_command demoEngine tagNoSigRepo).addTagCalled = false ∧
     ∀ (t : TagObj) (sigStartPos : Nat),
       findObject tagNoSigRepo 10 = some (.tag t) →
       isValidUtf8 t.rawBytes = true →
       findSub t.rawBytes (ascii "-----BEGIN") = some sigStartPos →
       verify_tag demoEngine tagNoSigRepo 10 =
         .ok ((verify_detached_signature demoEngine (t.rawBytes.drop sigStartPos)
                (t.rawBytes.take sigStartPos) 10).1,
              [(verify_detached_signature demoEngine (t.rawBytes.drop sigStartPos)
                (t.rawBytes.take sigStartPos) 10).2])) :=
  ⟨rfl, by decide,
   C4_checkpoint_verified_first demoEngine tagNoSigRepo 10 [.tagSignatureNotFound]
     rfl (by decide)⟩

lemma vds_false_report (eng : Engine) (sig payload : Bytes) (id : Nat)
    (h : (verify_detached_signature eng sig payload id).1 = false) :
    reportId (verify_detached_signature eng sig payload id).2 = some id ∧
    isTrustedReport (verify_detached_signature eng sig payload id).2 = false := by
  by_cases h1 : firstLine sig = PGP_MARKER
  · cases he : eng.verifyDetached sig payload with
    | err e => simp [verify_detached_signature, h1, he, reportId, isTrustedReport]
    | ok vr =>
      cases hg : verify_gpg_signature_result vr with
      | ok u => simp [verify_detached_signature, h1, he, hg] at h
      | error msg =>
        simp [verify_detached_signature, h1, he, hg, reportId, isTrustedReport]
  · by_cases h2 : firstLine sig = SSH_MARKER
    · simp only [verify_detached_signature]
      rw [if_neg h1, if_pos h2]
      exact ⟨rfl, rfl⟩
    · simp only [verify_detached_signature]
      rw [if_neg h1, if_neg h2]
      exact ⟨rfl, rfl⟩

lemma verify_commit_false_report (eng : Engine) (repo : Repo) (oid : Nat) (rs : List Report)
    (h : verify_commit eng repo oid = .ok (false, rs)) :
    ∃ r, rs = [r] ∧ reportId r = some oid ∧ isTrustedReport r = false := by
  cases hfc : find_commit repo oid with
  | error e => simp [verify_commit, hfc] at h
  | ok commit =>
    cases hg : commit.gpgsig with
    | none => simp [verify_commit, hfc, hg] at h
    | some sb =>
      simp only [verify_commit, hfc, hg] at h
      rw [Except.ok.injEq, Prod.mk.injEq] at h
      obtain ⟨hb, hrs⟩ := h
      exact ⟨_, hrs.symm, vds_false_report eng _ _ oid hb⟩

/-- C5: verification of the commit range is fail-fast — with every commit of
`l1` verifying Trusted and `bad` yielding a non-Trusted verdict (a rejected
signature or a missing gpgsig header), the range loop evaluates exactly
`l1 ++ [bad]` in order, never touches the commits after `bad`, returns false,
and its final diagnostic names `bad` itself with a non-Trusted verdict kind;
moreover `verify_from_ref` runs this loop precisely on the sequence the range
resolver produced. -/
theorem C5_fail_fast (eng : Engine) (repo : Repo) (l1 l2 : List Nat) (bad : Nat)
    (h1 : ∀ oid ∈ l1, ∃ rs, verify_commit eng repo oid = .ok (true, rs))
    (h2 : (∃ rs, verify_commit eng repo bad = .ok (false, rs)) ∨
          ∃ e, verify_commit eng repo bad = .error e) :
    (verifyCommitList eng repo (l1 ++ bad :: l2)).allValid = false ∧
    (verifyCommitList eng repo (l1 ++ bad :: l2)).evaluated = l1 ++ [bad] ∧
    (∃ r, (verifyCommitList eng repo (l1 ++ bad :: l2)).reports.getLast? = some r ∧
       reportId r = some bad ∧ isTrustedReport r = false) ∧
    ∀ fromTagOid commits, resolvedRange repo fromTagOid = .ok commits →
      verify_from_ref eng repo fromTagOid = .ok (verifyCommitList eng repo commits) := by
  have main : ∀ l1 : List Nat,
      (∀ oid ∈ l1, ∃ rs, verify_commit eng repo oid = .ok (true, rs)) →
      (verifyCommitList eng repo (l1 ++ bad :: l2)).allValid = false ∧
      (verifyCommitList eng repo (l1 ++ bad :: l2)).evaluated = l1 ++ [bad] ∧
      ∃ r, (verifyCommitList eng repo (l1 ++ bad :: l2)).reports.getLast? = some r ∧
        reportId r = some bad ∧ isTrustedReport r = false := by
    intro l1
    induction l1 with
    | nil =>
      intro _
      rcases h2 with ⟨rs, hb⟩ | ⟨e, hb⟩
      · obtain ⟨r, hr1, hr2, hr3⟩ := verify_commit_false_report eng repo bad rs hb
        subst hr1
        refine ⟨by simp [verifyCommitList, hb], by simp [verifyCommitList, hb],
          r, by simp [verifyCommitList, hb], hr2, hr3⟩
      · exact ⟨by simp [verifyCommitList, hb], by simp [verifyCommitList, hb],
          .notSignedWithGpg bad, by simp [verifyCommitList, hb], rfl, rfl⟩
    | cons a rest ih =>
      intro hall
      obtain ⟨rsa, ha⟩ := hall a (List.mem_cons_self a rest)
      obtain ⟨iha, ihb, r, hr1, hr2, hr3⟩ :=
        ih (fun oid hm => hall oid (List.mem_cons_of_mem a hm))
      have hne : (verifyCommitList eng repo (rest ++ bad :: l2)).reports ≠ [] := by
        intro hnil
        rw [hnil] at hr1
        exact Option.noConfusion hr1
      refine ⟨?_, ?_, r, ?_, hr2, hr3⟩
      · simp only [List.cons_append, verifyCommitList, ha]
        exact iha
      · simp only [List.cons_append, verifyCommitList, ha]
        exact congrArg (List.cons a) ihb
      · simp only [List.cons_append, verifyCommitList, ha]
        exact (List.getLast?_append_of_ne_nil rsa hne).trans hr1
  obtain ⟨m1, m2, m3⟩ := main l1 h1
  exact ⟨m1, m2, m3, fun fromTagOid commits hres => by simp [verify_from_ref, hres]⟩

/-- C5 witness: on the four-commit chain whose third commit is unsigned, the
loop evaluates commits 2 and 3 only, returns false, and the last diagnostic
names commit 3. -/
theorem C5_fail_fast_witness :
    (verifyCommitList demoEngine chainRepo ([2] ++ 3 :: [4])).allValid = false ∧
    (verifyCommitList demoEngine chainRepo ([2] ++ 3 :: [4])).evaluated = [2] ++ [3] ∧
    (∃ r, (verifyCommitList demoEngine chainRepo ([2] ++ 3 :: [4])).reports.getLast?
        = some r ∧ reportId r = some 3 ∧ isTrustedReport r = false) ∧
    ∀ fromTagOid commits, resolvedRange chainRepo fromTagOid = .ok commits →
      verify_from_ref demoEngine chainRepo fromTagOid =
        .ok (verifyCommitList demoEngine chainRepo commits) :=
  C5_fail_fast demoEngine chainRepo [2] [4] 3
    (by
      intro oid hm
      have : oid = 2 := by simpa using hm
      subst this
      exact ⟨[.trusted 2], by decide⟩)
    (Or.inr ⟨.headerFieldMissing, by decide⟩)

lemma vds_non_pgp (eng : Engine) (sig payload : Bytes) (id : Nat)
    (h : firstLine sig ≠ PGP_MARKER) :
    verify_detached_signature eng sig payload id =
      (false, if firstLine sig = SSH_MARKER then Report.sshUnsupported id
              else Report.unknownMarker id (firstLine sig)) := by
  simp only [verify_detached_signature]
  rw [if_neg h]
  by_cases h2 : firstLine sig = SSH_MARKER
  · rw [if_pos h2, if_pos h2]
  · rw [if_neg h2, if_neg h2]

/-- C8: signature blocks are classified by their first marker line — any block
whose first line is not the PGP begin marker is rejected with result false
without consulting the engine (the outcome is independent of the engine); the
SSH marker is reported as the unsupported scheme, any other marker as an
unknown marker carrying that first line; an unrecognized trailing block on the
checkpoint tag is likewise rejected through the same classifier, and its
report is distinct from the no-signature reports. -/
theorem C8_marker_classification (eng eng2 : Engine) (sig payload : Bytes) (id : Nat)
    (h : firstLine sig ≠ PGP_MARKER) :
    (verify_detached_signature eng sig payload id).1 = false ∧
    verify_detached_signature eng sig payload id =
      verify_detached_signature eng2 sig payload id ∧
    (firstLine sig = SSH_MARKER →
       (verify_detached_signature eng sig payload id).2 = .sshUnsupported id) ∧
    (firstLine sig ≠ SSH_MARKER →
       (verify_detached_signature eng sig payload id).2 =
         .unknownMarker id (firstLine sig)) ∧
    (∀ (repo : Repo) (tagOid : Nat) (t : TagObj) (sigStartPos : Nat),
       findObject repo tagOid = some (.tag t) →
       isValidUtf8 t.rawBytes = true →
       findSub t.rawBytes (ascii "-----BEGIN") = some sigStartPos →
       t.rawBytes.drop sigStartPos = sig →
       ∃ r, verify_tag eng repo tagOid = .ok (false, [r]) ∧
         r ≠ .tagSignatureNotFound ∧ isTrustedReport r = false) ∧
    ∀ (i : Nat) (fl : Bytes),
      Report.unknownMarker i fl ≠ .notSignedWithGpg i ∧
      Report.unknownMarker i fl ≠ .tagSignatureNotFound ∧
      Report.sshUnsupported i ≠ .tagSignatureNotFound := by
  refine ⟨?_, ?_, ?_, ?_, ?_, ?_⟩
  · rw [vds_non_pgp eng sig payload id h]
  · rw [vds_non_pgp eng sig payload id h, vds_non_pgp eng2 sig payload id h]
  · intro h2
    rw [vds_non_pgp eng sig payload id h, if_pos h2]
  · intro h2
    rw [vds_non_pgp eng sig payload id h, if_neg h2]
  · intro repo tagOid t sigStartPos hft hutf hfs hdrop
    subst hdrop
    have hv := vds_non_pgp eng (t.rawBytes.drop sigStartPos) (t.rawBytes.take sigStartPos)
      tagOid h
    refine ⟨(verify_detached_signature eng (t.rawBytes.drop sigStartPos)
      (t.rawBytes.take sigStartPos) tagOid).2, ?_, ?_, ?_⟩
    · simp [verify_tag, hft, hutf, hfs, hv]
    · rw [hv]
      by_cases h2 : firstLine (t.rawBytes.drop sigStartPos) = SSH_MARKER
      · rw [if_pos h2]
        exact fun he => Report.noConfusion he
      · rw [if_neg h2]
        exact fun he => Report.noConfusion he
    · rw [hv]
      by_cases h2 : firstLine (t.rawBytes.drop sigStartPos) = SSH_MARKER
      · rw [if_pos h2]; rfl
      · rw [if_neg h2]; rfl
  · intro i fl
    exact ⟨fun he => Report.noConfusion he, fun he => Report.noConfusion he,
      fun he => Report.noConfusion he⟩

/-- An SSH armored signature block used by the C8 witness. -/
def sshSig : Bytes :=
  ascii "-----BEGIN SSH SIGNATURE-----\nxyz\n-----END SSH SIGNATURE-----\n"

/-- C8 witness: the classification theorem instantiated on a concrete SSH
signature block. -/
theorem C8_marker_classification_witness :
    (verify_detached_signature demoEngine sshSig [] 2).1 = false ∧
    verify_detached_signature demoEngine sshSig [] 2 =
      verify_detached_signature failSignEngine sshSig [] 2 ∧
    (firstLine sshSig = SSH_MARKER →
       (verify_detached_signature demoEngine sshSig [] 2).2 = .sshUnsupported 2) ∧
    (firstLine sshSig ≠ SSH_MARKER →
       (verify_detached_signature demoEngine sshSig [] 2).2 =
         .unknownMarker 2 (firstLine sshSig)) ∧
    (∀ (repo : Repo) (tagOid : Nat) (t : TagObj) (sigStartPos : Nat),
       findObject repo tagOid = some (.tag t) →
       isValidUtf8 t.rawBytes = true →
       findSub t.rawBytes (ascii "-----BEGIN") = some sigStartPos →
       t.rawBytes.drop sigStartPos = sshSig →
       ∃ r, verify_tag demoEngine repo tagOid = .ok (false, [r]) ∧
         r ≠ .tagSignatureNotFound ∧ isTrustedReport r = false) ∧
    ∀ (i : Nat) (fl : Bytes),
      Report.unknownMarker i fl ≠ .notSignedWithGpg i ∧
      Report.unknownMarker i fl ≠ .tagSignatureNotFound ∧
      Report.sshUnsupported i ≠ .tagSignatureNotFound :=
  C8_marker_classification demoEngine failSignEngine sshSig [] 2 (by decide)

/-- C9: an engine-level failure of the detached-verify call is reported with
the engine-error diagnostic, a constructor distinct from the
invalid-signature rejection diagnostic produced when the engine runs and the
trust policy rejects the result. -/
theorem C9_engine_error_distinct (eng : Engine) (sig payload : Bytes) (id : Nat) (e : String)
    (h1 : firstLine sig = PGP_MARKER)
    (h2 : eng.verifyDetached sig payload = .err e) :
    verify_detached_signature eng sig payload id = (false, .engineError id e) ∧
    (∀ msg, Report.engineError id e ≠ .invalid id msg) ∧
    ∀ (eng2 : Engine) (vr : List SignerOutcome) (msg : String),
      eng2.verifyDetached sig payload = .ok vr →
      verify_gpg_signature_result vr = .error msg →
      verify_detached_signature eng2 sig payload id = (false, .invalid id msg) := by
  refine ⟨?_, ?_, ?_⟩
  · simp [verify_detached_signature, h1, h2]
  · intro msg he
    exact Report.noConfusion he
  · intro eng2 vr msg hv hr
    simp [verify_detached_signature, h1, hv, hr]

/-- An engine whose detached-verify call itself fails. -/
def errEngine : Engine :=
  { verifyDetached := fun _ _ => .err "gpgme io failure"
    signDetached := fun _ => none }

/-- C9 witness: the distinction theorem instantiated on a failing engine and a
PGP-marked block. -/
theorem C9_engine_error_distinct_witness :
    verify_detached_signature errEngine goodSig [] 10 =
      (false, .engineError 10 "gpgme io failure") ∧
    (∀ msg, Report.engineError 10 "gpgme io failure" ≠ .invalid 10 msg) ∧
    ∀ (eng2 : Engine) (vr : List SignerOutcome) (msg : String),
      eng2.verifyDetached goodSig [] = .ok vr →
      verify_gpg_signature_result vr = .error msg →
      verify_detached_signature eng2 goodSig [] 10 = (false, .invalid 10 msg) :=
  C9_engine_error_distinct errEngine goodSig [] 10 "gpgme io failure" (by decide) rfl

lemma vds_empty_sig (eng : Engine) (payload : Bytes) (id : Nat) :
    verify_detached_signature eng [] payload id = (false, .unknownMarker id []) := by
  have h0 : firstLine ([] : Bytes) = [] := rfl
  rw [vds_non_pgp eng [] payload id (by rw [h0]; decide), h0]
  rw [if_neg (by decide)]

/-- C10: a commit whose gpgsig header bytes are not valid UTF-8 neither
panics nor surfaces an operational error — the signature string degrades to
the empty string, the block falls into the unknown-marker branch, and
`verify_commit` returns `Ok(false)`, which forces the range pass (and hence
the overall verification) to false whenever that commit is in the range. -/
theorem C10_invalid_utf8_signature (eng : Engine) (repo : Repo) (oid : Nat)
    (c : CommitObj) (sb : Bytes)
    (h1 : find_commit repo oid = .ok c)
    (h2 : c.gpgsig = some sb)
    (h3 : isValidUtf8 sb = false) :
    verify_commit eng repo oid = .ok (false, [.unknownMarker oid []]) ∧
    ∀ l : List Nat, oid ∈ l → (verifyCommitList eng repo l).allValid = false := by
  have hvc : verify_commit eng repo oid = .ok (false, [.unknownMarker oid []]) := by
    simp [verify_commit, h1, h2, h3, vds_empty_sig]
  refine ⟨hvc, ?_⟩
  intro l hmem
  induction l with
  | nil => cases hmem
  | cons a rest ih =>
    rcases List.mem_cons.mp hmem with heq | hmem2
    · subst heq
      simp [verifyCommitList, hvc]
    · cases hva : verify_commit eng repo a with
      | error e => simp [verifyCommitList, hva]
      | ok br =>
        obtain ⟨b, rs⟩ := br
        cases b with
        | false => simp [verifyCommitList, hva]
        | true =>
          simp only [verifyCommitList, hva]
          exact ih hmem2

/-- C10 witness: the invalid-UTF-8 theorem instantiated on the demo
repository whose HEAD commit carries the lone byte 0xFF as its gpgsig
header value. -/
theorem C10_invalid_utf8_signature_witness :
    verify_commit demoEngine badUtf8Repo 2 = .ok (false, [.unknownMarker 2 []]) ∧
    ∀ l : List Nat, 2 ∈ l →
      (verifyCommitList demoEngine badUtf8Repo l).allValid = false :=
  C10_invalid_utf8_signature demoEngine badUtf8Repo 2
    { demoCommit2 with gpgsig := some [255] } [255] (by decide) rfl (by decide)

/-- C6 (code bug): the resolver's output set is the graph difference, but its
order is not "topologically sorted and then reversed".  The second
`set_sorting` call replaces the first, so the walker runs with `REVERSE`
alone — reversing the default time-ordered iteration — and on the
clock-skewed merge history `skewRepo` the code emits commit 6 before its own
parent 5, which no reversed topological order permits; with the combined
`TOPOLOGICAL | REVERSE` mode the same walker would produce a parents-first
order. -/
theorem C6_sort_mode_replaced :
    (∀ w : Revwalk, set_sorting (set_sorting w SORT_TOPOLOGICAL) SORT_REVERSE
        = { w with sorting := SORT_REVERSE }) ∧
    includedList skewRepo { tips := [7], hidden := [1], sorting := SORT_REVERSE }
      = [7, 6, 5] ∧
    resolvedRange skewRepo 10 = .ok [6, 5, 7] ∧
    parentsFirst skewRepo [6, 5, 7] = false ∧
    revwalkOutput skewRepo { tips := [7], hidden := [1], sorting := ⟨true, true⟩ }
      = [5, 6, 7] ∧
    parentsFirst skewRepo [5, 6, 7] = true := by
  refine ⟨fun w => rfl, by decide, by decide, by decide, by decide, by decide⟩

end GSV
